import Mathlib

/-!
Shallow embedding of the SLEPc configure package-probing code
(`src/config/package.py` and `src/config/log.py`).

The external toolchain (`commands.getstatusoutput` running make on the
synthesized `checklink.c`) is modelled as an oracle `LinkEnv` mapping the
trial's required-function list, callback list and linker-flag list to the
(status, output) pair the shell command would return.  The filesystem is
modelled as a list of existing paths where the temporary-file behaviour of
`LinkWithOutput` matters, and as an existence oracle `String → Bool` for
`GenerateGuesses`.
-/

namespace SlepcConfig

/-- Python `os.path.join` for two components: if the second component is
absolute it wins; an empty first component is dropped; otherwise the parts
are joined with a single separator. -/
def pjoin (a b : String) : String :=
  if b.data.head? = some '/' then b
  else if a = "" then b
  else if a.data.getLast? = some '/' then a ++ b
  else a ++ "/" ++ b

/-- Helper for substring containment on character lists. -/
def containsAux (n : List Char) : List Char → Bool
  | [] => n.isEmpty
  | c :: t => n.isPrefixOf (c :: t) || containsAux n t

/-- Python `needle in haystack` on strings. -/
def strContains (needle hay : String) : Bool :=
  containsAux needle.data hay.data

/-- Python `' '.join(l)`. -/
def joinSp (l : List String) : String := String.intercalate (" ") l

/-- Python `s.upper()` for the ASCII symbol names used here: character-wise
uppercasing. -/
def strUpper (s : String) : String := String.mk (s.data.map Char.toUpper)

/-- Python `s.lower()`: character-wise lowercasing. -/
def strLower (s : String) : String := String.mk (s.data.map Char.toLower)

/-- The toolchain oracle: models `commands.getstatusoutput` of the make
command in `Package.LinkWithOutput`, keyed by the data that determines the
trial (required functions, callback stubs, linker flags).  Returns the exit
status and the captured output. -/
def LinkEnv : Type := List String → List String → List String → Nat × String

/-- The C translation unit synthesized by `Package.LinkWithOutput`
(package.py lines 73-88), verbatim. -/
def genCode (functions callbacks : List String) : String :=
  let c0 := "#include \"petscksp.h\"\n"
  let c1 := c0 ++ String.join (functions.map (fun f => "PETSC_EXTERN int\n" ++ f ++ "();\n"))
  let c2 := c1 ++ String.join (callbacks.map (fun c => "int " ++ c ++ "() \x7b return 0; \x7d \n"))
  let c3 := c2 ++ "int main() \x7b\n" ++ "Vec v; Mat m; KSP k;\n"
    ++ "PetscInitializeNoArguments();\n" ++ "VecCreate(PETSC_COMM_WORLD,&v);\n"
    ++ "MatCreate(PETSC_COMM_WORLD,&m);\n" ++ "KSPCreate(PETSC_COMM_WORLD,&k);\n"
  let c4 := c3 ++ String.join (functions.map (fun f => f ++ "();\n"))
  c4 ++ "return 0;\n\x7d\n"

/-- `Package.LinkWithOutput` (package.py lines 72-99), value part: returns
the success flag (Python returns 1 on zero exit status of the make command,
0 otherwise) and the synthesized code concatenated with the captured
output.  The temporary-file side effect is modelled separately in
`LinkWithOutputFS`. -/
def LinkWithOutput (env : LinkEnv) (functions callbacks flags : List String) :
    Bool × String :=
  let code := genCode functions callbacks
  let ro := env functions callbacks flags
  if ro.1 ≠ 0 then (false, code ++ ro.2) else (true, code ++ ro.2)

/-- Filesystem state: the set of existing file paths, as a list. -/
abbrev FS : Type := List String

/-- Opening a path for writing creates the file (idempotent on the set of
existing paths). -/
def fsWrite (fs : FS) (p : String) : FS :=
  if (fs.contains p) then fs else fs ++ [p]

/-- `os.remove(p)` wrapped in `try/except OSError: pass`: removes the path
if present, otherwise does nothing. -/
def fsRemove (fs : FS) (p : String) : FS := List.erase fs p

/-- `Package.LinkWithOutput` with its filesystem effect (package.py lines
90-95): the source file is written to `os.path.join(tmpdir,'checklink.c')`,
the make command runs in a subshell (which does not change the Python
process working directory), and then `os.remove('checklink.c')` removes the
path `checklink.c` relative to the process working directory `cwd`, with
`OSError` swallowed. -/
def LinkWithOutputFS (env : LinkEnv) (cwd tmpdir : String) (fs : FS)
    (functions callbacks flags : List String) : (Bool × String) × FS :=
  let fs1 := fsWrite fs (pjoin tmpdir ("checklink.c"))
  let ro := LinkWithOutput env functions callbacks flags
  let fs2 := fsRemove fs1 (pjoin cwd ("checklink.c"))
  (ro, fs2)

/-- `Package.FortranLink` (package.py lines 106-133): tries trailing
underscore, then all uppercase, then unmodified names, applying the
transformation to both the function and callback lists; stops at the first
trial that links, returning the scheme name and that trial's annotated
transcript; if all three fail, returns the empty scheme (the code's
encoding of the spec's NONE-FOUND) and the flags banner followed by all
three annotated transcripts. -/
def FortranLink (env : LinkEnv) (functions callbacks flags : List String) :
    String × String :=
  let output := "\n=== With linker flags: " ++ joinSp flags
  let f1 := functions.map (fun i => i ++ "_")
  let c1 := callbacks.map (fun i => i ++ "_")
  let ro1 := LinkWithOutput env f1 c1 flags
  let output1 := "\n====== With underscore Fortran names\n" ++ ro1.2
  if ro1.1 then ("UNDERSCORE", output1) else
  let f2 := functions.map (fun i => strUpper i)
  let c2 := callbacks.map (fun i => strUpper i)
  let ro2 := LinkWithOutput env f2 c2 flags
  let output2 := "\n====== With capital Fortran names\n" ++ ro2.2
  if ro2.1 then ("CAPS", output2) else
  let ro3 := LinkWithOutput env functions callbacks flags
  let output3 := "\n====== With unmodified Fortran names\n" ++ ro3.2
  if ro3.1 then ("STDCALL", output3) else
  ("", output ++ output1 ++ output2 ++ output3)

/-- The configure log (`log.py`): lines written to the log file `fd` and
strings printed to the console, with the log filename used by `Exit`.
`FortranLib` is only ever called with the log file open, so `fd` is
unconditionally present. -/
structure Log where
  fd : List String
  console : List String
  filename : String
deriving Repr, DecidableEq

/-- `Log.write` (log.py lines 52-53). -/
def Log.write (lg : Log) (s : String) : Log :=
  ⟨lg.fd ++ [s ++ "\n"], lg.console, lg.filename⟩

/-- `Log.Println` (log.py lines 31-34): prints to the console and appends
to the log file. -/
def Log.Println (lg : Log) (s : String) : Log :=
  ⟨lg.fd ++ [s ++ "\n"], lg.console ++ [s], lg.filename⟩

/-- `Log.Exit` (log.py lines 61-70) with the log file open: prints and
logs the error banner, closes the file, and calls `sys.exit` with a
message string, which terminates the process with exit status 1. -/
def Log.Exit (lg : Log) (s : String) : Log × Nat :=
  let msg := "\nERROR: " ++ s
  let lg1 : Log := ⟨lg.fd ++ [msg ++ "\n"], lg.console ++ [msg], lg.filename⟩
  let msg2 := "ERROR: See \"" ++ lg1.filename ++ "\" file for details"
  (⟨lg1.fd, lg1.console ++ [msg2], lg1.filename⟩, 1)

/-- The well-known install prefixes of `Package.GenerateGuesses`
(package.py lines 136-138): `['/usr/local','/opt']`, with `$HOME`
prepended when the environment defines it. -/
def installdirs (home : Option String) : List String :=
  let base := [pjoin (pjoin ("/") ("usr")) ("local"), pjoin ("/") ("opt")]
  match home with
  | some h => h :: base
  | none => base

/-- The existence-filter loop of `Package.GenerateGuesses` (package.py
lines 148-150): iterate over a copy of the list, removing from the working
list the first occurrence of each entry that fails the existence check. -/
def pruneNonexistent (ex : String → Bool) (dirs : List String) : List String :=
  dirs.foldl (fun acc d => if ex d then acc else List.erase acc d) dirs

/-- `Package.GenerateGuesses` (package.py lines 135-152), with the
filesystem existence check `os.path.exists` modelled by the oracle `ex`
and `$HOME` by `home`: build prefix × subdirectory guesses, drop the ones
that fail the existence check, then prepend the empty string. -/
def GenerateGuesses (ex : String → Bool) (home : Option String)
    (name : String) : List String :=
  let dirs := (installdirs home).flatMap (fun i =>
    pjoin i ("lib") ::
      ([name, strUpper name, strLower name].flatMap (fun d =>
        [pjoin i d, pjoin (pjoin i d) ("lib"), pjoin (pjoin i ("lib")) d])))
  let dirs := pruneNonexistent ex dirs
  "" :: dirs

/-- The local variables of `Package.FortranLib`'s nested search loop
(package.py lines 156-170).  `error` and `mangling` are initialized before
the loop; `flagsv`, `outputv`, `dvar` and `lvar` model the Python locals
`flags`, `output`, `d` and `l`, which are unbound (`none`) until the
corresponding loop first assigns them. -/
structure LoopState where
  error : String
  mangling : String
  flagsv : Option (List String)
  outputv : Option String
  dvar : Option String
  lvar : Option (List String)
deriving Repr, DecidableEq

/-- The linker-flag list built for a (directory, library-name-set) pair
(package.py lines 160-166): a non-empty directory contributes `-L<dir>`
(preceded by the shared-library run-path flag when `petscconf.SLFLAG`
contains `'rpath'`), the empty directory contributes nothing. -/
def flagsFor (slflag d : String) (l : List String) : List String :=
  if d ≠ "" then
    if strContains ("rpath") slflag then (slflag ++ d) :: ("-L" ++ d) :: l
    else ("-L" ++ d) :: l
  else l

/-- The inner loop of `Package.FortranLib` over candidate library-name
sets (package.py lines 159-169): for each `l`, build the flags, run the
mangling detection, append its transcript to `error`, and break on the
first non-empty mangling. -/
def tryLibs (env : LinkEnv) (slflag : String)
    (functions callbacks : List String) (d : String) :
    List (List String) → LoopState → LoopState
  | [], st => st
  | l :: rest, st =>
    let flags := flagsFor slflag d l
    let mo := FortranLink env functions callbacks flags
    let st' : LoopState :=
      ⟨st.error ++ mo.2, mo.1, some flags, some mo.2, st.dvar, some l⟩
    if mo.1 ≠ "" then st' else tryLibs env slflag functions callbacks d rest st'

/-- The outer loop of `Package.FortranLib` over candidate directories
(package.py lines 158-170): record the loop variable `d`, run the inner
loop, and break once a mangling has been found. -/
def tryDirs (env : LinkEnv) (slflag : String)
    (functions callbacks : List String) (libs : List (List String)) :
    List String → LoopState → LoopState
  | [], st => st
  | d :: rest, st =>
    let st' := tryLibs env slflag functions callbacks d libs
      ⟨st.error, st.mangling, st.flagsv, st.outputv, some d, st.lvar⟩
    if st'.mangling ≠ "" then st'
    else tryDirs env slflag functions callbacks libs rest st'

/-- Python `s.lstrip('-l')`: drop the longest leading run of characters
drawn from the set `{'-','l'}` (package.py line 184). -/
def lstripDashL (s : String) : String :=
  s.dropWhile (fun ch => ch == '-' || ch == 'l')

/-- Outcome of `Package.FortranLib`: either the probe succeeds and the
flags are returned after the configuration fragments are written, or the
failure branch reaches `log.Exit` (process termination with the given
status), or the failure branch raises `NameError` by reading the loop
variable `flags` before any assignment (package.py line 178 when both
loops never ran a body). -/
inductive FortranLibOutcome where
  | success (flags : List String) (lg : Log) (conf vars cmake : String)
  | exited (lg : Log) (code : Nat)
  | nameError (lg : Log)
deriving Repr, DecidableEq

/-- `Package.FortranLib` (package.py lines 154-186).  The search loop is
`tryDirs`/`tryLibs`; on success the matched trial's transcript is written
to the log and the header, build-variable and CMake fragments are emitted
(returned as strings); on failure the accumulated transcript and the three
ERROR lines are emitted and `log.Exit('')` terminates the run — unless the
loop never assigned `flags`, in which case evaluating
`' '.join(flags)` raises `NameError` after the first two ERROR lines. -/
def FortranLib (env : LinkEnv) (slflag : String) (lg : Log)
    (pkgname : String) (dirs : List String) (libs : List (List String))
    (functions : List String) (callbacks : List String) : FortranLibOutcome :=
  let name := strUpper pkgname
  let st0 : LoopState := ⟨"", "", none, none, none, none⟩
  let st := tryDirs env slflag functions callbacks libs dirs st0
  if st.mangling ≠ "" then
    let lg1 := lg.write (st.outputv.getD (""))
    let flags := st.flagsv.getD []
    let d := st.dvar.getD ("")
    let l := st.lvar.getD []
    let conf := "#ifndef SLEPC_HAVE_" ++ name ++ "\n#define SLEPC_HAVE_"
      ++ name ++ " 1\n#define SLEPC_" ++ name ++ "_HAVE_" ++ st.mangling
      ++ " 1\n#endif\n\n"
    let vars := name ++ "_LIB = " ++ joinSp flags ++ "\n"
    let libname := joinSp (l.map lstripDashL)
    let cmake := "set (SLEPC_HAVE_" ++ name ++ " YES)\n"
      ++ "set (" ++ name ++ "_LIB \"\")\nforeach (libname " ++ libname
      ++ ")\n  string (TOUPPER $\x7blibname\x7d LIBNAME)\n  find_library ($\x7bLIBNAME\x7dLIB $\x7blibname\x7d HINTS "
      ++ d ++ ")\n  list (APPEND " ++ name ++ "_LIB \"$\x7b$\x7bLIBNAME\x7dLIB\x7d\")\nendforeach()\n"
    .success flags lg1 conf vars cmake
  else
    let lg1 := lg.write st.error
    let lg2 := lg1.Println ("ERROR: Unable to link with library " ++ name)
    let lg3 := lg2.Println ("ERROR: In directories " ++ joinSp dirs)
    match st.flagsv with
    | none => .nameError lg3
    | some flags =>
      let lg4 := lg3.Println ("ERROR: With flags " ++ joinSp flags)
      let eo := lg4.Exit ("")
      .exited eo.1 eo.2

/-! ### Specification-level descriptions of the search

The following definitions restate, directly by recursion over the
candidate lists, which trials the nested search performs and where it
first succeeds.  The lemmas below connect them to `tryLibs`/`tryDirs`. -/

/-- The scheme/transcript pair the mangling detection yields for one
(directory, library-name-set) pair. -/
def pairResult (env : LinkEnv) (slflag : String)
    (functions callbacks : List String) (p : String × List String) :
    String × String :=
  FortranLink env functions callbacks (flagsFor slflag p.1 p.2)

/-- The first candidate library-name set in `libs` (for directory `d`)
whose mangling detection succeeds. -/
def firstHitLibs (env : LinkEnv) (slflag : String)
    (functions callbacks : List String) (d : String) :
    List (List String) → Option (List String)
  | [] => none
  | l :: rest =>
    if (pairResult env slflag functions callbacks (d, l)).1 ≠ "" then some l
    else firstHitLibs env slflag functions callbacks d rest

/-- The failing library-name sets preceding the first hit (all of `libs`
when no hit exists). -/
def missesLibs (env : LinkEnv) (slflag : String)
    (functions callbacks : List String) (d : String) :
    List (List String) → List (List String)
  | [] => []
  | l :: rest =>
    if (pairResult env slflag functions callbacks (d, l)).1 ≠ "" then []
    else l :: missesLibs env slflag functions callbacks d rest

/-- The first (directory, library-name-set) pair of the nested
(outer directories × inner library sets) search whose mangling detection
succeeds. -/
def firstHit (env : LinkEnv) (slflag : String)
    (functions callbacks : List String) (libs : List (List String)) :
    List String → Option (String × List String)
  | [] => none
  | d :: rest =>
    match firstHitLibs env slflag functions callbacks d libs with
    | some l => some (d, l)
    | none => firstHit env slflag functions callbacks libs rest

/-- The failing (directory, library-name-set) pairs that the nested search
attempts before its first hit (the whole product when no hit exists). -/
def missesPairs (env : LinkEnv) (slflag : String)
    (functions callbacks : List String) (libs : List (List String)) :
    List String → List (String × List String)
  | [] => []
  | d :: rest =>
    match firstHitLibs env slflag functions callbacks d libs with
    | some _ =>
      (missesLibs env slflag functions callbacks d libs).map (fun l => (d, l))
    | none =>
      libs.map (fun l => (d, l))
        ++ missesPairs env slflag functions callbacks libs rest

/-- The full (directory × library-name-set) candidate space, directories
outer, library sets inner. -/
def candPairs (dirs : List String) (libs : List (List String)) :
    List (String × List String) :=
  dirs.flatMap (fun d => libs.map (fun l => (d, l)))

/-- A single compile-and-link trial presented to the toolchain oracle:
required functions, callback stubs, linker flags. -/
def Trial : Type := List String × List String × List String

/-- The link trials `FortranLink` actually consults the oracle on, in
order: the prefix of the underscore/uppercase/unmodified sequence up to
and including the first success (all three when every scheme fails). -/
def consultedTrials (env : LinkEnv) (functions callbacks flags : List String) :
    List Trial :=
  let t1 : Trial := (functions.map (fun i => i ++ "_"),
    callbacks.map (fun i => i ++ "_"), flags)
  if (LinkWithOutput env t1.1 t1.2.1 t1.2.2).1 then [t1] else
  let t2 : Trial := (functions.map (fun i => strUpper i),
    callbacks.map (fun i => strUpper i), flags)
  if (LinkWithOutput env t2.1 t2.2.1 t2.2.2).1 then [t1, t2] else
  [t1, t2, (functions, callbacks, flags)]

/-- The trials the inner loop consults the oracle on: for each candidate
library set up to and including the first hit, the trials its mangling
detection consults. -/
def consultedLibs (env : LinkEnv) (slflag : String)
    (functions callbacks : List String) (d : String) :
    List (List String) → List Trial
  | [] => []
  | l :: rest =>
    let ts := consultedTrials env functions callbacks (flagsFor slflag d l)
    if (pairResult env slflag functions callbacks (d, l)).1 ≠ "" then ts
    else ts ++ consultedLibs env slflag functions callbacks d rest

/-- The trials the whole nested search consults the oracle on: directory
by directory up to and including the first directory containing a hit. -/
def consulted (env : LinkEnv) (slflag : String)
    (functions callbacks : List String) (libs : List (List String)) :
    List String → List Trial
  | [] => []
  | d :: rest =>
    match firstHitLibs env slflag functions callbacks d libs with
    | some _ => consultedLibs env slflag functions callbacks d libs
    | none => consultedLibs env slflag functions callbacks d libs
        ++ consulted env slflag functions callbacks libs rest

/-- Two toolchain oracles agree on a list of trials. -/
def agreeOn (ts : List Trial) (env env' : LinkEnv) : Prop :=
  ∀ t ∈ ts, env' t.1 t.2.1 t.2.2 = env t.1 t.2.1 t.2.2

/-- Concatenation of a list of strings, in order. -/
def strJoin : List String → String
  | [] => ""
  | s :: r => s ++ strJoin r

/-! ### Helper lemmas -/

theorem strJoin_append (x y : List String) :
    strJoin (x ++ y) = strJoin x ++ strJoin y := by
  induction x with
  | nil => simp [strJoin, String.empty_append]
  | cons a t ih => simp [strJoin, ih, String.append_assoc]

theorem getLastD_irrel {α : Type} (l : List α) (h : l ≠ []) (a b : α) :
    l.getLastD a = l.getLastD b := by
  cases l with
  | nil => exact absurd rfl h
  | cons x xs => rw [List.getLastD_cons, List.getLastD_cons]

theorem getLast?_getD_cons {α : Type} (a : α) (t : List α) (ht : t ≠ [])
    (dflt : α) : (a :: t).getLast?.getD dflt = t.getLast?.getD dflt := by
  cases t with
  | nil => exact absurd rfl ht
  | cons b l => rw [List.getLast?_cons_cons]

theorem agreeOn_append_left {x y : List Trial} {env env' : LinkEnv}
    (h : agreeOn (x ++ y) env env') : agreeOn x env env' :=
  fun t ht => h t (List.mem_append_left y ht)

theorem agreeOn_append_right {x y : List Trial} {env env' : LinkEnv}
    (h : agreeOn (x ++ y) env env') : agreeOn y env env' :=
  fun t ht => h t (List.mem_append_right x ht)

/-! ### Equational lemmas for the mangling detection -/

theorem fortranLink_eq_us (env : LinkEnv) (f c flags : List String)
    (h : (LinkWithOutput env (f.map (fun i => i ++ "_"))
      (c.map (fun i => i ++ "_")) flags).1 = true) :
    FortranLink env f c flags = ("UNDERSCORE",
      "\n====== With underscore Fortran names\n"
        ++ (LinkWithOutput env (f.map (fun i => i ++ "_"))
          (c.map (fun i => i ++ "_")) flags).2) := by
  simp [FortranLink, h]

theorem fortranLink_eq_caps (env : LinkEnv) (f c flags : List String)
    (h1 : (LinkWithOutput env (f.map (fun i => i ++ "_"))
      (c.map (fun i => i ++ "_")) flags).1 = false)
    (h2 : (LinkWithOutput env (f.map (fun i => strUpper i))
      (c.map (fun i => strUpper i)) flags).1 = true) :
    FortranLink env f c flags = ("CAPS",
      "\n====== With capital Fortran names\n"
        ++ (LinkWithOutput env (f.map (fun i => strUpper i))
          (c.map (fun i => strUpper i)) flags).2) := by
  simp [FortranLink, h1, h2]

theorem fortranLink_eq_std (env : LinkEnv) (f c flags : List String)
    (h1 : (LinkWithOutput env (f.map (fun i => i ++ "_"))
      (c.map (fun i => i ++ "_")) flags).1 = false)
    (h2 : (LinkWithOutput env (f.map (fun i => strUpper i))
      (c.map (fun i => strUpper i)) flags).1 = false)
    (h3 : (LinkWithOutput env f c flags).1 = true) :
    FortranLink env f c flags = ("STDCALL",
      "\n====== With unmodified Fortran names\n"
        ++ (LinkWithOutput env f c flags).2) := by
  simp [FortranLink, h1, h2, h3]

theorem fortranLink_eq_none (env : LinkEnv) (f c flags : List String)
    (h1 : (LinkWithOutput env (f.map (fun i => i ++ "_"))
      (c.map (fun i => i ++ "_")) flags).1 = false)
    (h2 : (LinkWithOutput env (f.map (fun i => strUpper i))
      (c.map (fun i => strUpper i)) flags).1 = false)
    (h3 : (LinkWithOutput env f c flags).1 = false) :
    FortranLink env f c flags = ("",
      "\n=== With linker flags: " ++ joinSp flags
      ++ ("\n====== With underscore Fortran names\n"
        ++ (LinkWithOutput env (f.map (fun i => i ++ "_"))
          (c.map (fun i => i ++ "_")) flags).2)
      ++ ("\n====== With capital Fortran names\n"
        ++ (LinkWithOutput env (f.map (fun i => strUpper i))
          (c.map (fun i => strUpper i)) flags).2)
      ++ ("\n====== With unmodified Fortran names\n"
        ++ (LinkWithOutput env f c flags).2)) := by
  simp [FortranLink, h1, h2, h3]

/-! ### Characterization of the nested search loop -/

theorem firstHitLibs_ne (env : LinkEnv) (slflag : String)
    (fns cbs : List String) (d : String) (libs : List (List String))
    (l : List String)
    (h : firstHitLibs env slflag fns cbs d libs = some l) :
    (pairResult env slflag fns cbs (d, l)).1 ≠ "" := by
  induction libs with
  | nil => simp [firstHitLibs] at h
  | cons a t ih =>
    rw [firstHitLibs] at h
    by_cases hc : (pairResult env slflag fns cbs (d, a)).1 ≠ ""
    · rw [if_pos hc] at h
      cases h
      exact hc
    · rw [if_neg hc] at h
      exact ih h

theorem tryLibs_none (env : LinkEnv) (slflag : String)
    (fns cbs : List String) (d : String) (libs : List (List String))
    (h : firstHitLibs env slflag fns cbs d libs = none) (st : LoopState) :
    tryLibs env slflag fns cbs d libs st =
      ⟨st.error ++ strJoin (libs.map
          (fun l => (pairResult env slflag fns cbs (d, l)).2)),
       if libs = [] then st.mangling else "",
       if libs = [] then st.flagsv
         else some (flagsFor slflag d (libs.getLastD [])),
       if libs = [] then st.outputv
         else some ((pairResult env slflag fns cbs (d, libs.getLastD [])).2),
       st.dvar,
       if libs = [] then st.lvar else some (libs.getLastD [])⟩ := by
  induction libs generalizing st with
  | nil => simp [tryLibs, strJoin, String.append_empty]
  | cons a t ih =>
    rw [firstHitLibs] at h
    by_cases hc : (pairResult env slflag fns cbs (d, a)).1 ≠ ""
    · rw [if_pos hc] at h
      exact absurd h (by simp)
    · rw [if_neg hc] at h
      have hc' : (FortranLink env fns cbs (flagsFor slflag d a)).1 = "" := by
        simpa [pairResult] using hc
      rw [tryLibs]
      simp only [hc', ne_eq, not_true_eq_false, if_false, ite_false,
        not_false_eq_true]
      rw [ih h]
      by_cases ht : t = []
      · subst ht
        simp [tryLibs, strJoin, pairResult, String.append_empty,
          String.append_assoc, List.getLastD_cons]
      · simp [ht, strJoin, pairResult, String.append_assoc,
          List.getLastD_cons, getLast?_getD_cons a t ht ([] : List String)]

theorem tryLibs_some (env : LinkEnv) (slflag : String)
    (fns cbs : List String) (d : String) (libs : List (List String))
    (l : List String)
    (h : firstHitLibs env slflag fns cbs d libs = some l) (st : LoopState) :
    tryLibs env slflag fns cbs d libs st =
      ⟨st.error ++ strJoin ((missesLibs env slflag fns cbs d libs).map
          (fun l' => (pairResult env slflag fns cbs (d, l')).2))
        ++ (pairResult env slflag fns cbs (d, l)).2,
       (pairResult env slflag fns cbs (d, l)).1,
       some (flagsFor slflag d l),
       some ((pairResult env slflag fns cbs (d, l)).2),
       st.dvar, some l⟩ := by
  induction libs generalizing st with
  | nil => simp [firstHitLibs] at h
  | cons a t ih =>
    rw [firstHitLibs] at h
    rw [missesLibs, tryLibs]
    by_cases hc : (pairResult env slflag fns cbs (d, a)).1 ≠ ""
    · rw [if_pos hc] at h
      cases h
      have hc2 : ¬ (FortranLink env fns cbs (flagsFor slflag d l)).1 = "" := by
        simpa [pairResult] using hc
      simp [hc2, pairResult, strJoin, String.append_empty]
    · rw [if_neg hc] at h
      have hc' : (FortranLink env fns cbs (flagsFor slflag d a)).1 = "" := by
        simpa [pairResult] using hc
      rw [if_neg hc]
      simp only [hc', ne_eq, not_true_eq_false, if_false, ite_false,
        not_false_eq_true]
      rw [ih h]
      simp [strJoin, pairResult, String.append_assoc]

theorem tryDirs_nil_libs (env : LinkEnv) (slflag : String)
    (fns cbs : List String) (dirs : List String) (st : LoopState)
    (hm : st.mangling = "") :
    tryDirs env slflag fns cbs [] dirs st =
      ⟨st.error, st.mangling, st.flagsv, st.outputv,
       if dirs = [] then st.dvar else some (dirs.getLastD ""),
       st.lvar⟩ := by
  induction dirs generalizing st with
  | nil => simp [tryDirs]
  | cons d rest ih =>
    rw [tryDirs]
    simp only [tryLibs, hm, ne_eq, not_true_eq_false, if_false, ite_false,
      not_false_eq_true]
    rw [ih ⟨st.error, "", st.flagsv, st.outputv, some d, st.lvar⟩ rfl]
    by_cases hr : rest = []
    · subst hr
      simp [List.getLastD_cons]
    · simp [hr, getLast?_getD_cons d rest hr ("")]

theorem tryDirs_none (env : LinkEnv) (slflag : String)
    (fns cbs : List String) (libs : List (List String)) (dirs : List String)
    (hL : libs ≠ [])
    (h : firstHit env slflag fns cbs libs dirs = none) (st : LoopState)
    (hm : st.mangling = "") :
    tryDirs env slflag fns cbs libs dirs st =
      ⟨st.error ++ strJoin ((candPairs dirs libs).map
          (fun p => (pairResult env slflag fns cbs p).2)),
       if dirs = [] then st.mangling else "",
       if dirs = [] then st.flagsv
         else some (flagsFor slflag (dirs.getLastD "") (libs.getLastD [])),
       if dirs = [] then st.outputv
         else some ((pairResult env slflag fns cbs
           (dirs.getLastD "", libs.getLastD [])).2),
       if dirs = [] then st.dvar else some (dirs.getLastD ""),
       if dirs = [] then st.lvar else some (libs.getLastD [])⟩ := by
  induction dirs generalizing st with
  | nil => simp [tryDirs, candPairs, strJoin, String.append_empty]
  | cons d rest ih =>
    rw [firstHit] at h
    cases hfl : firstHitLibs env slflag fns cbs d libs with
    | some l => rw [hfl] at h; exact absurd h (by simp)
    | none =>
      rw [hfl] at h
      rw [tryDirs]
      rw [tryLibs_none env slflag fns cbs d libs hfl
        ⟨st.error, st.mangling, st.flagsv, st.outputv, some d, st.lvar⟩]
      simp only [hL, if_false, ite_false, ne_eq, not_true_eq_false,
        not_false_eq_true]
      rw [ih h ⟨_, "", _, _, _, _⟩ rfl]
      by_cases hr : rest = []
      · subst hr
        simp [candPairs, strJoin, strJoin_append, String.append_assoc,
          String.append_empty, List.getLastD_cons, hL, Function.comp_def]
      · simp [hr, hL, candPairs, strJoin, strJoin_append,
          String.append_assoc, getLast?_getD_cons d rest hr (""),
          Function.comp_def]

theorem tryDirs_some (env : LinkEnv) (slflag : String)
    (fns cbs : List String) (libs : List (List String)) (dirs : List String)
    (d : String) (l : List String)
    (h : firstHit env slflag fns cbs libs dirs = some (d, l)) (st : LoopState)
    (hm : st.mangling = "") :
    tryDirs env slflag fns cbs libs dirs st =
      ⟨st.error ++ strJoin ((missesPairs env slflag fns cbs libs dirs).map
          (fun p => (pairResult env slflag fns cbs p).2))
        ++ (pairResult env slflag fns cbs (d, l)).2,
       (pairResult env slflag fns cbs (d, l)).1,
       some (flagsFor slflag d l),
       some ((pairResult env slflag fns cbs (d, l)).2),
       some d, some l⟩ := by
  induction dirs generalizing st with
  | nil => simp [firstHit] at h
  | cons d0 rest ih =>
    rw [firstHit] at h
    rw [missesPairs, tryDirs]
    cases hfl : firstHitLibs env slflag fns cbs d0 libs with
    | some l0 =>
      rw [hfl] at h
      cases h
      rw [tryLibs_some env slflag fns cbs d libs l hfl
        ⟨st.error, st.mangling, st.flagsv, st.outputv, some d, st.lvar⟩]
      have hne : (pairResult env slflag fns cbs (d, l)).1 ≠ "" :=
        firstHitLibs_ne env slflag fns cbs d libs l hfl
      simp [hne, Function.comp_def, String.append_assoc]
    | none =>
      rw [hfl] at h
      rw [tryLibs_none env slflag fns cbs d0 libs hfl
        ⟨st.error, st.mangling, st.flagsv, st.outputv, some d0, st.lvar⟩]
      by_cases hL : libs = []
      · subst hL
        simp only [if_pos rfl, hm, ne_eq, not_true_eq_false, if_false,
          ite_false, not_false_eq_true, ite_true]
        rw [ih h ⟨_, "", _, _, _, _⟩ rfl]
        simp [strJoin, String.append_empty]
      · simp only [hL, if_false, ite_false, ne_eq, not_true_eq_false,
          not_false_eq_true]
        rw [ih h ⟨_, "", _, _, _, _⟩ rfl]
        simp [hfl, strJoin_append, String.append_assoc, Function.comp_def]

/-! ### Oracle-agreement (noninterference) lemmas: the outcome depends
only on the oracle's answers at the trials the code actually runs. -/

theorem linkWithOutput_congr (env env' : LinkEnv) (f c fl : List String)
    (h : env' f c fl = env f c fl) :
    LinkWithOutput env' f c fl = LinkWithOutput env f c fl := by
  simp only [LinkWithOutput, h]

theorem fortranLink_agree (env env' : LinkEnv) (f c flags : List String)
    (h : agreeOn (consultedTrials env f c flags) env env') :
    FortranLink env' f c flags = FortranLink env f c flags := by
  have ht1 : ((f.map (fun i => i ++ "_"), c.map (fun i => i ++ "_"), flags)
      : Trial) ∈ consultedTrials env f c flags := by
    simp only [consultedTrials]
    split
    · exact List.mem_singleton.mpr rfl
    · split <;> simp
  have w1 : LinkWithOutput env' (f.map (fun i => i ++ "_"))
      (c.map (fun i => i ++ "_")) flags
      = LinkWithOutput env (f.map (fun i => i ++ "_"))
        (c.map (fun i => i ++ "_")) flags :=
    linkWithOutput_congr env env' _ _ _ (h _ ht1)
  by_cases h1 : (LinkWithOutput env (f.map (fun i => i ++ "_"))
      (c.map (fun i => i ++ "_")) flags).1 = true
  · rw [fortranLink_eq_us env f c flags h1,
      fortranLink_eq_us env' f c flags (by rw [w1]; exact h1), w1]
  · have h1' : (LinkWithOutput env (f.map (fun i => i ++ "_"))
        (c.map (fun i => i ++ "_")) flags).1 = false :=
      Bool.not_eq_true _ ▸ (Bool.eq_false_iff.mpr (fun hc => h1 hc))
    have ht2 : ((f.map (fun i => strUpper i), c.map (fun i => strUpper i),
        flags) : Trial) ∈ consultedTrials env f c flags := by
      simp only [consultedTrials]
      rw [if_neg (by rw [h1']; exact Bool.false_ne_true)]
      split <;> simp
    have w2 : LinkWithOutput env' (f.map (fun i => strUpper i))
        (c.map (fun i => strUpper i)) flags
        = LinkWithOutput env (f.map (fun i => strUpper i))
          (c.map (fun i => strUpper i)) flags :=
      linkWithOutput_congr env env' _ _ _ (h _ ht2)
    by_cases h2 : (LinkWithOutput env (f.map (fun i => strUpper i))
        (c.map (fun i => strUpper i)) flags).1 = true
    · rw [fortranLink_eq_caps env f c flags h1' h2,
        fortranLink_eq_caps env' f c flags (by rw [w1]; exact h1')
          (by rw [w2]; exact h2), w2]
    · have h2' : (LinkWithOutput env (f.map (fun i => strUpper i))
          (c.map (fun i => strUpper i)) flags).1 = false :=
        Bool.not_eq_true _ ▸ (Bool.eq_false_iff.mpr (fun hc => h2 hc))
      have ht3 : ((f, c, flags) : Trial) ∈ consultedTrials env f c flags := by
        simp only [consultedTrials]
        rw [if_neg (by rw [h1']; exact Bool.false_ne_true),
          if_neg (by rw [h2']; exact Bool.false_ne_true)]
        simp
      have w3 : LinkWithOutput env' f c flags = LinkWithOutput env f c flags :=
        linkWithOutput_congr env env' _ _ _ (h _ ht3)
      simp only [FortranLink, w1, w2, w3]

theorem tryLibs_agree (env env' : LinkEnv) (slflag : String)
    (fns cbs : List String) (d : String) (libs : List (List String))
    (h : agreeOn (consultedLibs env slflag fns cbs d libs) env env') :
    ∀ st, tryLibs env' slflag fns cbs d libs st
      = tryLibs env slflag fns cbs d libs st := by
  induction libs with
  | nil => intro st; rfl
  | cons a t ih =>
    intro st
    rw [consultedLibs] at h
    by_cases hc : (pairResult env slflag fns cbs (d, a)).1 ≠ ""
    · rw [if_pos hc] at h
      have hfl : FortranLink env' fns cbs (flagsFor slflag d a)
          = FortranLink env fns cbs (flagsFor slflag d a) :=
        fortranLink_agree env env' fns cbs (flagsFor slflag d a) h
      rw [tryLibs, tryLibs, hfl]
      have hc' : (FortranLink env fns cbs (flagsFor slflag d a)).1 ≠ "" := by
        simpa [pairResult] using hc
      rw [if_pos hc', if_pos hc']
    · rw [if_neg hc] at h
      have hfl : FortranLink env' fns cbs (flagsFor slflag d a)
          = FortranLink env fns cbs (flagsFor slflag d a) :=
        fortranLink_agree env env' fns cbs (flagsFor slflag d a)
          (agreeOn_append_left h)
      have hc' : ¬ (FortranLink env fns cbs (flagsFor slflag d a)).1 ≠ "" := by
        simpa [pairResult] using hc
      rw [tryLibs, tryLibs, hfl, if_neg hc', if_neg hc']
      exact ih (agreeOn_append_right h) _

theorem tryDirs_agree (env env' : LinkEnv) (slflag : String)
    (fns cbs : List String) (libs : List (List String)) (dirs : List String)
    (h : agreeOn (consulted env slflag fns cbs libs dirs) env env') :
    ∀ st, st.mangling = "" → tryDirs env' slflag fns cbs libs dirs st
      = tryDirs env slflag fns cbs libs dirs st := by
  induction dirs with
  | nil => intro st _; rfl
  | cons d rest ih =>
    intro st hm
    rw [consulted] at h
    cases hfl : firstHitLibs env slflag fns cbs d libs with
    | some l =>
      rw [hfl] at h
      have hTL := tryLibs_agree env env' slflag fns cbs d libs h
      rw [tryDirs, tryDirs, hTL]
      have hmg : (tryLibs env slflag fns cbs d libs
          ⟨st.error, st.mangling, st.flagsv, st.outputv, some d, st.lvar⟩).mangling ≠ "" := by
        rw [tryLibs_some env slflag fns cbs d libs l hfl]
        exact firstHitLibs_ne env slflag fns cbs d libs l hfl
      rw [if_pos hmg, if_pos hmg]
    | none =>
      rw [hfl] at h
      have hTL := tryLibs_agree env env' slflag fns cbs d libs
        (agreeOn_append_left h)
      rw [tryDirs, tryDirs, hTL]
      have hmg : (tryLibs env slflag fns cbs d libs
          ⟨st.error, st.mangling, st.flagsv, st.outputv, some d, st.lvar⟩).mangling = "" := by
        rw [tryLibs_none env slflag fns cbs d libs hfl]
        by_cases hL : libs = [] <;> simp [hL, hm]
      rw [if_neg (by rw [hmg]; simp), if_neg (by rw [hmg]; simp)]
      exact ih (agreeOn_append_right h) _ hmg

theorem fortranLib_agree (env env' : LinkEnv) (slflag : String) (lg : Log)
    (pkgname : String) (dirs : List String) (libs : List (List String))
    (fns cbs : List String)
    (h : agreeOn (consulted env slflag fns cbs libs dirs) env env') :
    FortranLib env' slflag lg pkgname dirs libs fns cbs
      = FortranLib env slflag lg pkgname dirs libs fns cbs := by
  simp only [FortranLib]
  rw [tryDirs_agree env env' slflag fns cbs libs dirs h
    ⟨"", "", none, none, none, none⟩ rfl]

theorem firstHit_ne (env : LinkEnv) (slflag : String)
    (fns cbs : List String) (libs : List (List String)) (dirs : List String)
    (d : String) (l : List String)
    (h : firstHit env slflag fns cbs libs dirs = some (d, l)) :
    (pairResult env slflag fns cbs (d, l)).1 ≠ "" := by
  induction dirs with
  | nil => simp [firstHit] at h
  | cons d0 rest ih =>
    rw [firstHit] at h
    cases hfl : firstHitLibs env slflag fns cbs d0 libs with
    | some l0 =>
      rw [hfl] at h
      cases h
      exact firstHitLibs_ne env slflag fns cbs d libs l hfl
    | none =>
      rw [hfl] at h
      exact ih h

/-- Success path of `Package.FortranLib`: when the nested search has a
first hit `(d, l)`, the probe returns the flags built from that pair, logs
only that pair's mangling-detection transcript, and emits the header,
build-variable and CMake fragments. -/
theorem fortranLib_some (env : LinkEnv) (slflag : String) (lg : Log)
    (pkgname : String) (dirs : List String) (libs : List (List String))
    (fns cbs : List String) (d : String) (l : List String)
    (h : firstHit env slflag fns cbs libs dirs = some (d, l)) :
    FortranLib env slflag lg pkgname dirs libs fns cbs =
      .success (flagsFor slflag d l)
        (lg.write ((pairResult env slflag fns cbs (d, l)).2))
        ("#ifndef SLEPC_HAVE_" ++ strUpper pkgname ++ "\n#define SLEPC_HAVE_"
          ++ strUpper pkgname ++ " 1\n#define SLEPC_" ++ strUpper pkgname
          ++ "_HAVE_" ++ (pairResult env slflag fns cbs (d, l)).1
          ++ " 1\n#endif\n\n")
        (strUpper pkgname ++ "_LIB = " ++ joinSp (flagsFor slflag d l) ++ "\n")
        ("set (SLEPC_HAVE_" ++ strUpper pkgname ++ " YES)\n"
          ++ "set (" ++ strUpper pkgname ++ "_LIB \"\")\nforeach (libname "
          ++ joinSp (l.map lstripDashL)
          ++ ")\n  string (TOUPPER $\x7blibname\x7d LIBNAME)\n  find_library ($\x7bLIBNAME\x7dLIB $\x7blibname\x7d HINTS "
          ++ d ++ ")\n  list (APPEND " ++ strUpper pkgname
          ++ "_LIB \"$\x7b$\x7bLIBNAME\x7dLIB\x7d\")\nendforeach()\n") := by
  have hne := firstHit_ne env slflag fns cbs libs dirs d l h
  simp only [FortranLib]
  rw [tryDirs_some env slflag fns cbs libs dirs d l h
    ⟨"", "", none, none, none, none⟩ rfl]
  simp [hne]

/-- Failure path of `Package.FortranLib`: when no candidate pair links and
both candidate lists are non-empty, the accumulated transcript of every
attempted combination and the three ERROR lines are written, and
`log.Exit` ends the run with exit status 1. -/
theorem fortranLib_none (env : LinkEnv) (slflag : String) (lg : Log)
    (pkgname : String) (dirs : List String) (libs : List (List String))
    (fns cbs : List String) (hd : dirs ≠ []) (hL : libs ≠ [])
    (h : firstHit env slflag fns cbs libs dirs = none) :
    FortranLib env slflag lg pkgname dirs libs fns cbs =
      .exited
        ⟨lg.fd ++ [strJoin ((candPairs dirs libs).map
            (fun p => (pairResult env slflag fns cbs p).2)) ++ "\n",
          "ERROR: Unable to link with library " ++ strUpper pkgname ++ "\n",
          "ERROR: In directories " ++ joinSp dirs ++ "\n",
          "ERROR: With flags " ++ joinSp (flagsFor slflag (dirs.getLastD "")
            (libs.getLastD [])) ++ "\n",
          "\nERROR: \n"],
         lg.console ++ ["ERROR: Unable to link with library "
            ++ strUpper pkgname,
          "ERROR: In directories " ++ joinSp dirs,
          "ERROR: With flags " ++ joinSp (flagsFor slflag (dirs.getLastD "")
            (libs.getLastD [])),
          "\nERROR: ",
          "ERROR: See \"" ++ lg.filename ++ "\" file for details"],
         lg.filename⟩ 1 := by
  simp only [FortranLib]
  rw [tryDirs_none env slflag fns cbs libs dirs hL h
    ⟨"", "", none, none, none, none⟩ rfl]
  simp [hd, Log.write, Log.Println, Log.Exit, String.empty_append]

/-- Degenerate path of `Package.FortranLib`: when the directory list or
the library list is empty, the failure branch reads the never-assigned
loop variable `flags`, so the run aborts with `NameError` right after the
first two ERROR lines. -/
theorem fortranLib_empty (env : LinkEnv) (slflag : String) (lg : Log)
    (pkgname : String) (dirs : List String) (libs : List (List String))
    (fns cbs : List String) (h : dirs = [] ∨ libs = []) :
    FortranLib env slflag lg pkgname dirs libs fns cbs =
      .nameError
        ⟨lg.fd ++ ["\n",
          "ERROR: Unable to link with library " ++ strUpper pkgname ++ "\n",
          "ERROR: In directories " ++ joinSp dirs ++ "\n"],
         lg.console ++ ["ERROR: Unable to link with library "
            ++ strUpper pkgname,
          "ERROR: In directories " ++ joinSp dirs],
         lg.filename⟩ := by
  simp only [FortranLib]
  rcases h with h | h
  · subst h
    simp [tryDirs, Log.write, Log.Println, String.empty_append]
  · subst h
    rw [tryDirs_nil_libs env slflag fns cbs dirs
      ⟨"", "", none, none, none, none⟩ rfl]
    simp [Log.write, Log.Println, String.empty_append]

theorem prune_aux (ex : String → Bool) :
    ∀ (l pre : List String), (∀ z ∈ pre, ex z = true) →
      List.foldl (fun acc d => if ex d then acc else List.erase acc d)
        (pre ++ l) l = pre ++ l.filter ex := by
  intro l
  induction l with
  | nil => intro pre _; simp
  | cons a t ih =>
    intro pre hp
    rw [List.foldl_cons]
    by_cases ha : ex a = true
    · rw [if_pos ha]
      have hsplit : pre ++ a :: t = (pre ++ [a]) ++ t := by simp
      rw [hsplit, ih (pre ++ [a]) ?side]
      · simp [List.filter_cons, ha]
      case side =>
        intro z hz
        rcases List.mem_append.mp hz with hz | hz
        · exact hp z hz
        · rw [List.mem_singleton.mp hz]
          exact ha
    · rw [if_neg ha]
      have hnotin : a ∉ pre := fun hin => ha (hp a hin)
      have herase : List.erase (pre ++ a :: t) a = pre ++ t := by
        rw [List.erase_append_right _ hnotin, List.erase_cons_head]
      rw [herase, ih pre hp]
      simp [List.filter_cons, ha]

/-- The remove-failing-entries loop of `GenerateGuesses` is exactly a
filter by the existence check. -/
theorem pruneNonexistent_eq_filter (ex : String → Bool)
    (dirs : List String) :
    pruneNonexistent ex dirs = dirs.filter ex := by
  have h := prune_aux ex dirs [] (by intro z hz; cases hz)
  simpa [pruneNonexistent] using h

/-! ### Concrete toolchain oracles used to instantiate the theorems -/

/-- An oracle that links only all-uppercase names: the synthetic library
of the CAPS scenario. -/
def envCaps : LinkEnv := fun f _ _ =>
  if f = ["EIGSOLVE"] then (0, "capsok") else (1, "no")

/-- An oracle for which no trial ever links. -/
def envNone : LinkEnv := fun _ _ _ => (1, "nope")

/-- The end-to-end FOO oracle: only the underscore-suffixed symbol with
the `/opt/foo/lib` flags links. -/
def envFoo : LinkEnv := fun f _ fl =>
  if f = ["foosolve_"] ∧ fl = ["-L/opt/foo/lib", "-lfoo"] then (0, "ok")
  else (1, "bad")

/-- An oracle whose first candidate pair fails (output marker FAIL1) and
whose second pair links with underscore names. -/
def envTwo : LinkEnv := fun f _ fl =>
  if f = ["f_"] ∧ fl = ["-L/d", "-lx"] then (0, "WIN") else (1, "FAIL1")

/-- An initially empty open log. -/
def lg0 : Log := ⟨[], [], ("configure.log")⟩

/-! ### The claims -/

/-- C1: `FortranLink` tries the mangling schemes in the fixed order
underscore, all-uppercase, unmodified, transforming both the required and
the callback symbol lists, stops at the first scheme whose link trial
succeeds and reports that scheme's name; in particular, when the
underscore trial fails and the uppercase trial succeeds it reports CAPS
and the unmodified-name trial is never performed (the result is the same
under any oracle that agrees on just the underscore and uppercase
trials). -/
theorem claim1_mangling_priority (env : LinkEnv)
    (functions callbacks flags : List String) :
    ((LinkWithOutput env (functions.map (fun i => i ++ "_"))
        (callbacks.map (fun i => i ++ "_")) flags).1 = true →
      (FortranLink env functions callbacks flags).1 = "UNDERSCORE")
    ∧ ((LinkWithOutput env (functions.map (fun i => i ++ "_"))
        (callbacks.map (fun i => i ++ "_")) flags).1 = false →
      (LinkWithOutput env (functions.map (fun i => strUpper i))
        (callbacks.map (fun i => strUpper i)) flags).1 = true →
      (FortranLink env functions callbacks flags).1 = "CAPS"
      ∧ ∀ env' : LinkEnv,
          agreeOn [(functions.map (fun i => i ++ "_"),
              callbacks.map (fun i => i ++ "_"), flags),
            (functions.map (fun i => strUpper i),
              callbacks.map (fun i => strUpper i), flags)] env env' →
          FortranLink env' functions callbacks flags
            = FortranLink env functions callbacks flags)
    ∧ ((LinkWithOutput env (functions.map (fun i => i ++ "_"))
        (callbacks.map (fun i => i ++ "_")) flags).1 = false →
      (LinkWithOutput env (functions.map (fun i => strUpper i))
        (callbacks.map (fun i => strUpper i)) flags).1 = false →
      (LinkWithOutput env functions callbacks flags).1 = true →
      (FortranLink env functions callbacks flags).1 = "STDCALL") := by
  refine ⟨fun h1 => ?_, fun h1 h2 => ⟨?_, fun env' hag => ?_⟩,
    fun h1 h2 h3 => ?_⟩
  · rw [fortranLink_eq_us env functions callbacks flags h1]
  · rw [fortranLink_eq_caps env functions callbacks flags h1 h2]
  · have hts : consultedTrials env functions callbacks flags
        = [(functions.map (fun i => i ++ "_"),
            callbacks.map (fun i => i ++ "_"), flags),
           (functions.map (fun i => strUpper i),
            callbacks.map (fun i => strUpper i), flags)] := by
      simp [consultedTrials, h1, h2]
    exact fortranLink_agree env env' functions callbacks flags
      (hts ▸ hag)
  · rw [fortranLink_eq_std env functions callbacks flags h1 h2 h3]

/-- Witness for C1 at the CAPS-only oracle: the underscore trial fails,
the uppercase trial succeeds, and the reported scheme is CAPS. -/
theorem claim1_witness :
    (FortranLink envCaps ["eigsolve"] [] ["-lx"]).1 = "CAPS" :=
  ((claim1_mangling_priority envCaps ["eigsolve"] [] ["-lx"]).2.1
    (by decide) (by decide)).1

/-- C8: when all three mangling trials fail for a flag set, `FortranLink`
reports the NONE-FOUND scheme (encoded as the empty string) and a
diagnostic consisting of the flags banner followed by the three trials'
annotated transcripts concatenated in order. -/
theorem claim8_all_fail_diagnostic (env : LinkEnv)
    (functions callbacks flags : List String)
    (h1 : (LinkWithOutput env (functions.map (fun i => i ++ "_"))
      (callbacks.map (fun i => i ++ "_")) flags).1 = false)
    (h2 : (LinkWithOutput env (functions.map (fun i => strUpper i))
      (callbacks.map (fun i => strUpper i)) flags).1 = false)
    (h3 : (LinkWithOutput env functions callbacks flags).1 = false) :
    FortranLink env functions callbacks flags = ("",
      "\n=== With linker flags: " ++ joinSp flags
      ++ ("\n====== With underscore Fortran names\n"
        ++ (LinkWithOutput env (functions.map (fun i => i ++ "_"))
          (callbacks.map (fun i => i ++ "_")) flags).2)
      ++ ("\n====== With capital Fortran names\n"
        ++ (LinkWithOutput env (functions.map (fun i => strUpper i))
          (callbacks.map (fun i => strUpper i)) flags).2)
      ++ ("\n====== With unmodified Fortran names\n"
        ++ (LinkWithOutput env functions callbacks flags).2)) :=
  fortranLink_eq_none env functions callbacks flags h1 h2 h3

/-- Witness for C8 at the never-links oracle. -/
theorem claim8_witness :
    (FortranLink envNone ["f"] [] ["-lx"]).1 = "" := by
  have h := claim8_all_fail_diagnostic envNone ["f"] [] ["-lx"]
    (by decide) (by decide) (by decide)
  rw [h]

/-- C2: the nested search of `FortranLib` is monotonic — directories are
iterated in the outer loop and library-name sets in the inner loop, the
flags of the first (directory, library-set) pair whose mangling detection
succeeds are the ones returned and recorded in the build-variable
fragment, and once that first success is reached no further directory,
library set or mangling scheme is attempted: the whole outcome is
unchanged under any oracle that agrees with the original on exactly the
trials up to and including the first success (`consulted`). -/
theorem claim2_monotonic_search (env : LinkEnv) (slflag : String)
    (lg : Log) (pkgname : String) (dirs : List String)
    (libs : List (List String)) (fns cbs : List String)
    (d : String) (l : List String)
    (h : firstHit env slflag fns cbs libs dirs = some (d, l)) :
    (∃ lgs conf cmake,
      FortranLib env slflag lg pkgname dirs libs fns cbs
        = .success (flagsFor slflag d l) lgs conf
            (strUpper pkgname ++ "_LIB = " ++ joinSp (flagsFor slflag d l)
              ++ "\n") cmake)
    ∧ ∀ env' : LinkEnv,
        agreeOn (consulted env slflag fns cbs libs dirs) env env' →
        FortranLib env' slflag lg pkgname dirs libs fns cbs
          = FortranLib env slflag lg pkgname dirs libs fns cbs :=
  ⟨⟨_, _, _, fortranLib_some env slflag lg pkgname dirs libs fns cbs d l h⟩,
   fun env' hag =>
     fortranLib_agree env env' slflag lg pkgname dirs libs fns cbs hag⟩

/-- Witness for C2 at the FOO oracle: the first hit is
`("/opt/foo/lib", ["-lfoo"])` and its flags are returned and recorded. -/
theorem claim2_witness :
    ∃ lgs conf cmake,
      FortranLib envFoo ("") lg0 ("foo") ["", "/opt/foo/lib"] [["-lfoo"]]
          ["foosolve"] []
        = .success (flagsFor ("") ("/opt/foo/lib") ["-lfoo"]) lgs conf
            (strUpper ("foo") ++ "_LIB = "
              ++ joinSp (flagsFor ("") ("/opt/foo/lib") ["-lfoo"]) ++ "\n")
            cmake :=
  (claim2_monotonic_search envFoo ("") lg0 ("foo") ["", "/opt/foo/lib"]
    [["-lfoo"]] ["foosolve"] [] ("/opt/foo/lib") ["-lfoo"] (by decide)).1

/-- C3: when no (directory, library-set, mangling) combination links and
at least one combination was attempted, the run ends via `log.Exit` with a
non-zero status, the console carries the ERROR lines naming the package,
the attempted directories and the attempted flags, and the log file
receives the transcript that is the in-order concatenation of exactly one
chunk per attempted directory/library combination.  (The case of an empty
directory or library list instead aborts on an unbound local variable;
that path is claim C10.) -/
theorem claim3_exhausted_fatal_exit (env : LinkEnv) (slflag : String)
    (lg : Log) (pkgname : String) (dirs : List String)
    (libs : List (List String)) (fns cbs : List String)
    (hd : dirs ≠ []) (hL : libs ≠ [])
    (h : firstHit env slflag fns cbs libs dirs = none) :
    ∃ lgf code,
      FortranLib env slflag lg pkgname dirs libs fns cbs = .exited lgf code
      ∧ code ≠ 0
      ∧ ("ERROR: Unable to link with library " ++ strUpper pkgname)
          ∈ lgf.console
      ∧ ("ERROR: In directories " ++ joinSp dirs) ∈ lgf.console
      ∧ ("ERROR: With flags " ++ joinSp (flagsFor slflag (dirs.getLastD "")
          (libs.getLastD []))) ∈ lgf.console
      ∧ (strJoin ((candPairs dirs libs).map
          (fun p => (pairResult env slflag fns cbs p).2)) ++ "\n")
          ∈ lgf.fd := by
  refine ⟨_, _, fortranLib_none env slflag lg pkgname dirs libs fns cbs
    hd hL h, one_ne_zero, ?_, ?_, ?_, ?_⟩ <;> simp

/-- Witness for C3 at the never-links oracle. -/
theorem claim3_witness :
    ∃ lgf code,
      FortranLib envNone ("") lg0 ("bar") ["", "/d1"] [["-lbar"]]
          ["barsolve"] [] = .exited lgf code
      ∧ code ≠ 0
      ∧ ("ERROR: Unable to link with library " ++ strUpper ("bar"))
          ∈ lgf.console
      ∧ ("ERROR: In directories " ++ joinSp ["", "/d1"]) ∈ lgf.console
      ∧ ("ERROR: With flags " ++ joinSp (flagsFor ("")
          ((["", "/d1"]).getLastD "") (([["-lbar"]]).getLastD [])))
          ∈ lgf.console
      ∧ (strJoin ((candPairs ["", "/d1"] [["-lbar"]]).map
          (fun p => (pairResult envNone ("") ["barsolve"] [] p).2)) ++ "\n")
          ∈ lgf.fd :=
  claim3_exhausted_fatal_exit envNone ("") lg0 ("bar") ["", "/d1"]
    [["-lbar"]] ["barsolve"] [] (by decide) (by decide) (by decide)

/-- C4: end-to-end FOO scenario — candidate library set `["-lfoo"]`
(library file `libfoo.a`), required symbol `foosolve`, directory guesses
`["", "/opt/foo/lib"]`, toolchain that links only the underscore-suffixed
symbol with `-L/opt/foo/lib -lfoo`: the probe resolves mangling
UNDERSCORE with flags exactly `["-L/opt/foo/lib", "-lfoo"]` (the empty
directory adds no `-L`), the header fragment contains the two `#define`
lines and the build-variable fragment is exactly
`FOO_LIB = -L/opt/foo/lib -lfoo`. -/
theorem claim4_end_to_end :
    ∃ lgs conf cmake,
      FortranLib envFoo ("") lg0 ("foo") ["", "/opt/foo/lib"] [["-lfoo"]]
          ["foosolve"] []
        = .success ["-L/opt/foo/lib", "-lfoo"] lgs conf
            ("FOO_LIB = -L/opt/foo/lib -lfoo\n") cmake
      ∧ (FortranLink envFoo ["foosolve"] [] ["-L/opt/foo/lib", "-lfoo"]).1
          = "UNDERSCORE"
      ∧ strContains ("#define SLEPC_HAVE_FOO 1") conf = true
      ∧ strContains ("#define SLEPC_FOO_HAVE_UNDERSCORE 1") conf = true := by
  refine ⟨_, _, _, rfl, by decide, by decide, by decide⟩

/-- C5 (code bug evidence): `LinkWithOutput` writes the temporary source
file at `tmpdir/checklink.c` but removes the cwd-relative path
`checklink.c`, so whenever the process working directory differs from
`tmpdir` — as in an actual configure run, which never changes directory
into the arch tmpdir — the written file is still present after the call
returns, on the failure path and on the success path alike. -/
theorem claim5_tempfile_left_behind :
    ((LinkWithOutputFS envNone ("/slepc") ("/slepc/installed-arch") []
        ["f"] [] ["-lx"]).1.1 = false
      ∧ (LinkWithOutputFS envNone ("/slepc") ("/slepc/installed-arch") []
        ["f"] [] ["-lx"]).2 = ["/slepc/installed-arch/checklink.c"])
    ∧ ((LinkWithOutputFS envFoo ("/slepc") ("/slepc/installed-arch") []
        ["foosolve_"] [] ["-L/opt/foo/lib", "-lfoo"]).1.1 = true
      ∧ (LinkWithOutputFS envFoo ("/slepc") ("/slepc/installed-arch") []
        ["foosolve_"] [] ["-L/opt/foo/lib", "-lfoo"]).2
        = ["/slepc/installed-arch/checklink.c"]) := by
  constructor
  · exact ⟨by decide, by decide⟩
  · exact ⟨by decide, by decide⟩

/-- C6 counterexample: it is not the case that every entry of the
returned guess list passes the existence check — the generator prepends
the empty-string sentinel after filtering, and the empty string fails the
existence check (as `os.path.exists('')` does). -/
theorem claim6_counterexample :
    ¬ (∀ p ∈ GenerateGuesses (fun _ => false) none ("foo"),
        (fun _ => false : String → Bool) p = true) := by
  decide

/-- C6 amended: the returned guess list always begins with the
empty-string sentinel (meaning "no extra -L"), and every entry other than
that leading sentinel passes the existence check applied before
returning. -/
theorem claim6_guesses_filtered (ex : String → Bool) (home : Option String)
    (name : String) :
    ∃ rest, GenerateGuesses ex home name = "" :: rest
      ∧ ∀ p ∈ rest, ex p = true := by
  refine ⟨_, rfl, ?_⟩
  rw [pruneNonexistent_eq_filter]
  intro p hp
  exact List.of_mem_filter hp

/-- Witness for C6 amended: with only `/usr/local/lib` existing, the list
is the sentinel followed by that directory, which passes the check. -/
theorem claim6_witness :
    ((GenerateGuesses (fun q => q == "/usr/local/lib") none
      ("foo")).head? = some "")
    ∧ ((fun q : String => q == "/usr/local/lib") "/usr/local/lib" = true) := by
  obtain ⟨rest, he, hall⟩ := claim6_guesses_filtered
    (fun q => q == "/usr/local/lib") none ("foo")
  have hg : GenerateGuesses (fun q => q == "/usr/local/lib") none ("foo")
      = ["", "/usr/local/lib"] := by decide
  constructor
  · rw [hg]
    rfl
  · have h2 : "" :: rest = ["", "/usr/local/lib"] := he.symm.trans hg
    have h3 : rest = ["/usr/local/lib"] := by
      injection h2
    exact hall "/usr/local/lib" (by rw [h3]; exact List.mem_singleton.mpr rfl)

set_option maxRecDepth 40000

/-- C7 counterexample: with a toolchain where the first candidate pair
`("", ["-lx"])` fails (its compiler output carries the marker FAIL1) and
the second pair links, the probe succeeds, the first pair was attempted
(it is among the misses of the search), its transcript carries the
marker — yet the log written on the success path does not contain the
marker: the failed attempt's transcript is omitted from the log. -/
theorem claim7_counterexample :
    (("", ["-lx"]) ∈ missesPairs envTwo ("") ["f"] [] [["-lx"]] ["", "/d"])
    ∧ strContains ("FAIL1")
        ((pairResult envTwo ("") ["f"] [] ("", ["-lx"])).2) = true
    ∧ ∃ flags lgs conf vars cmake,
        FortranLib envTwo ("") lg0 ("pkg") ["", "/d"] [["-lx"]] ["f"] []
          = .success flags lgs conf vars cmake
        ∧ strContains ("FAIL1") (strJoin lgs.fd) = false := by
  refine ⟨by decide, by decide, _, _, _, _, _, rfl, by decide⟩

/-- C7 amended: on the failure path the log receives the transcript that
concatenates, in order, exactly one chunk per attempted
directory/library combination; on the success path only the successful
trial's transcript is written — the transcripts of earlier failed
combinations are not logged. -/
theorem claim7_transcript_logging (env : LinkEnv) (slflag : String)
    (lg : Log) (pkgname : String) (dirs : List String)
    (libs : List (List String)) (fns cbs : List String) :
    (∀ d l, firstHit env slflag fns cbs libs dirs = some (d, l) →
      ∃ flags conf vars cmake,
        FortranLib env slflag lg pkgname dirs libs fns cbs
          = .success flags
              (lg.write ((pairResult env slflag fns cbs (d, l)).2))
              conf vars cmake)
    ∧ (dirs ≠ [] → libs ≠ [] →
      firstHit env slflag fns cbs libs dirs = none →
      ∃ lgf code,
        FortranLib env slflag lg pkgname dirs libs fns cbs
          = .exited lgf code
        ∧ lgf.fd = lg.fd
            ++ [strJoin ((candPairs dirs libs).map
                  (fun p => (pairResult env slflag fns cbs p).2)) ++ "\n",
                "ERROR: Unable to link with library " ++ strUpper pkgname
                  ++ "\n",
                "ERROR: In directories " ++ joinSp dirs ++ "\n",
                "ERROR: With flags " ++ joinSp (flagsFor slflag
                  (dirs.getLastD "") (libs.getLastD [])) ++ "\n",
                "\nERROR: \n"]) := by
  constructor
  · intro d l h
    exact ⟨_, _, _, _,
      fortranLib_some env slflag lg pkgname dirs libs fns cbs d l h⟩
  · intro hd hL h
    exact ⟨_, _,
      fortranLib_none env slflag lg pkgname dirs libs fns cbs hd hL h, rfl⟩

/-- Witness for C7 amended at the two-pair oracle: the success half
applied to the hit `("/d", ["-lx"])`. -/
theorem claim7_witness :
    ∃ flags conf vars cmake,
      FortranLib envTwo ("") lg0 ("pkg") ["", "/d"] [["-lx"]] ["f"] []
        = .success flags
            (lg0.write ((pairResult envTwo ("") ["f"] [] ("/d", ["-lx"])).2))
            conf vars cmake :=
  (claim7_transcript_logging envTwo ("") lg0 ("pkg") ["", "/d"] [["-lx"]]
    ["f"] []).1 ("/d") ["-lx"] (by decide)

/-- C9: two-run determinism — with a package descriptor fixed, two runs
whose filesystem existence checks and whose compile/link trials answer
identically produce the identical guess list and the identical probe
outcome (same mangling, same flags, same emitted fragments); there is no
nondeterminism from iteration order. -/
theorem claim9_two_run_determinism (ex ex' : String → Bool)
    (env env' : LinkEnv) (home : Option String) (slflag : String)
    (lg : Log) (pkgname : String) (libs : List (List String))
    (fns cbs : List String)
    (hex : ∀ p, ex p = ex' p)
    (henv : ∀ a b c, env a b c = env' a b c) :
    GenerateGuesses ex home pkgname = GenerateGuesses ex' home pkgname
    ∧ FortranLib env slflag lg pkgname (GenerateGuesses ex home pkgname)
        libs fns cbs
      = FortranLib env' slflag lg pkgname (GenerateGuesses ex' home pkgname)
          libs fns cbs := by
  have hexe : ex = ex' := funext hex
  have henve : env = env' :=
    funext fun a => funext fun b => funext fun c => henv a b c
  subst hexe
  subst henve
  exact ⟨rfl, rfl⟩

/-- Witness for C9 at concrete oracles. -/
theorem claim9_witness :
    GenerateGuesses (fun _ => false) none ("foo")
      = GenerateGuesses (fun _ => false) none ("foo")
    ∧ FortranLib envNone ("") lg0 ("foo")
        (GenerateGuesses (fun _ => false) none ("foo")) [["-lfoo"]]
        ["foosolve"] []
      = FortranLib envNone ("") lg0 ("foo")
          (GenerateGuesses (fun _ => false) none ("foo")) [["-lfoo"]]
          ["foosolve"] [] :=
  claim9_two_run_determinism (fun _ => false) (fun _ => false) envNone
    envNone none ("") lg0 ("foo") [["-lfoo"]] ["foosolve"] []
    (fun _ => rfl) (fun _ _ _ => rfl)

/-- C10: the clean fatal-error path of `FortranLib` implicitly requires
both candidate lists non-empty — when the directory list or the
library-set list is empty the failure branch reads the never-assigned
loop variable `flags`, so the call aborts with `NameError` right after
the package and directory ERROR lines instead of reaching the
`log.Exit` diagnostic; with both lists non-empty the unbound-variable
abort can never happen. -/
theorem claim10_empty_lists_unbound (env : LinkEnv) (slflag : String)
    (lg : Log) (pkgname : String) (dirs : List String)
    (libs : List (List String)) (fns cbs : List String) :
    ((dirs = [] ∨ libs = []) →
      FortranLib env slflag lg pkgname dirs libs fns cbs =
        .nameError
          ⟨lg.fd ++ ["\n",
            "ERROR: Unable to link with library " ++ strUpper pkgname
              ++ "\n",
            "ERROR: In directories " ++ joinSp dirs ++ "\n"],
           lg.console ++ ["ERROR: Unable to link with library "
              ++ strUpper pkgname,
            "ERROR: In directories " ++ joinSp dirs],
           lg.filename⟩)
    ∧ (dirs ≠ [] → libs ≠ [] → ∀ lg',
        FortranLib env slflag lg pkgname dirs libs fns cbs
          ≠ .nameError lg') := by
  constructor
  · exact fortranLib_empty env slflag lg pkgname dirs libs fns cbs
  · intro hd hL lg'
    cases hfh : firstHit env slflag fns cbs libs dirs with
    | some p =>
      obtain ⟨d, l⟩ := p
      rw [fortranLib_some env slflag lg pkgname dirs libs fns cbs d l hfh]
      simp
    | none =>
      rw [fortranLib_none env slflag lg pkgname dirs libs fns cbs hd hL hfh]
      simp

/-- Witness for C10: an empty directory list aborts with the
unbound-variable outcome. -/
theorem claim10_witness :
    FortranLib envNone ("") lg0 ("bar") [] [["-lbar"]] ["barsolve"] []
      = .nameError
          ⟨lg0.fd ++ ["\n",
            "ERROR: Unable to link with library " ++ strUpper ("bar")
              ++ "\n",
            "ERROR: In directories " ++ joinSp [] ++ "\n"],
           lg0.console ++ ["ERROR: Unable to link with library "
              ++ strUpper ("bar"),
            "ERROR: In directories " ++ joinSp []],
           lg0.filename⟩ :=
  (claim10_empty_lists_unbound envNone ("") lg0 ("bar") [] [["-lbar"]]
    ["barsolve"] []).1 (Or.inl rfl)

end SlepcConfig
